import Mathlib

/-!
Verification of the event-ticketing domain model (repository `OOPPP`,
files `event_ticketing/main2.py` and `event_ticketing/main.py`).

The richer variant (`main2.py`) is embedded under namespace `EventTicketing`;
the minimal variant (`main.py`) under `EventTicketingV1`.

Modelling conventions:
* Python object references to tickets are modelled as positions into the
  owning zone's ticket list; the `indexed` helper pairs each ticket with its
  position so that the purchase loop mutates the live zone state, exactly as
  the Python loop mutates shared ticket objects.
* Python `float` prices are modelled as `ℚ`; every price arithmetic that the
  claims touch (`2 * 150.0`, `1000 * 0.2`) is exact in IEEE doubles, so the
  rational model agrees with the float semantics at those points.
* Buyers are identified by their `id`; a ticket's back-reference to its buyer
  stores the buyer id. A ticket's `zone` back-reference always denotes the
  zone owning the list the ticket sits in (it is fixed at construction to the
  constructing zone), so `ticket.zone.price` is passed as that zone's price.
* `logging` calls are side effects on no program state and are dropped.
-/

namespace EventTicketing

/-- `TicketStatus` enumeration of `main2.py`. -/
inductive TicketStatus where
  | available
  | sold
  | refunded
deriving DecidableEq, Repr

/-- `OrderStatus` enumeration of `main2.py`. -/
inductive OrderStatus where
  | pending
  | completed
  | canceled
deriving DecidableEq, Repr

/-- `PaymentStatus` enumeration of `main2.py`. -/
inductive PaymentStatus where
  | pending
  | completed
  | failed
deriving DecidableEq, Repr

/-- `RefundStatus` enumeration of `main2.py`. -/
inductive RefundStatus where
  | pending
  | approved
  | rejected
deriving DecidableEq, Repr

/-- State of a `Ticket` object (`main2.py`, `Ticket.__init__`): id, status and
the optional buyer back-reference (stored as the buyer's id).  The `zone`
back-reference is fixed at construction to the owning zone and is represented
implicitly: operations needing `ticket.zone.price` receive the owning zone's
price. -/
structure Ticket where
  id : Nat
  status : TicketStatus
  buyer : Option Nat
deriving DecidableEq, Repr

/-- `Ticket.__init__`: a fresh ticket is `AVAILABLE` with no buyer. -/
def Ticket.init (id : Nat) : Ticket :=
  { id := id, status := .available, buyer := none }

/-- `Ticket.purchase` (main2.py lines 271-278): if the status is `AVAILABLE`,
record the buyer, set status `SOLD` and return `True`; otherwise return
`False` leaving the ticket untouched.  (The `buyer.tickets.append(self)` side
effect on the buyer object is handled by the caller embedding,
`Buyer.purchase_tickets`.) -/
def Ticket.purchase (t : Ticket) (buyerId : Nat) : Ticket × Bool :=
  if t.status = .available then
    ({ t with buyer := some buyerId, status := .sold }, true)
  else
    (t, false)

/-- `Ticket.refund` (main2.py lines 280-285): succeeds only when the status is
`SOLD` *and* a buyer is recorded (`self.__buyer` is truthy). -/
def Ticket.refund (t : Ticket) : Ticket × Bool :=
  if t.status = .sold ∧ t.buyer.isSome then
    ({ t with status := .refunded }, true)
  else
    (t, false)

/-- State of an `Order` object (`main2.py`, `Order.__init__`): id, the list of
held tickets (their ids, in insertion order), accumulated total price, and
status.  A fresh order is `PENDING` with no tickets and total `0.0`. -/
structure Order where
  id : Nat
  ticketIds : List Nat
  total_price : ℚ
  status : OrderStatus
deriving DecidableEq, Repr

/-- `Order.__init__`. -/
def Order.init (id : Nat) : Order :=
  { id := id, ticketIds := [], total_price := 0, status := .pending }

/-- `Order.add_ticket` (main2.py lines 305-307): append the ticket and add
`ticket.zone.price` to the running total.  `price` is the owning zone's price
(the ticket's `zone` back-reference is fixed at construction to the zone whose
list holds it). -/
def Order.add_ticket (o : Order) (ticketId : Nat) (price : ℚ) : Order :=
  { o with ticketIds := o.ticketIds ++ [ticketId],
           total_price := o.total_price + price }

/-- State of a `Payment` object (`main2.py`, `Payment.__init__`): id, amount,
status (`PENDING` at construction). -/
structure Payment where
  id : Nat
  amount : ℚ
  status : PaymentStatus
deriving DecidableEq, Repr

/-- `Payment.process_payment` (main2.py lines 344-352): sets the status to
`COMPLETED` and returns `True` when `success` holds, otherwise sets `FAILED`
and returns `False`.  Note: the current status is never consulted. -/
def Payment.process_payment (p : Payment) (success : Bool) : Payment × Bool :=
  if success then
    ({ p with status := .completed }, true)
  else
    ({ p with status := .failed }, false)

/-- `Order.complete_order` (main2.py lines 309-321).  `buyerOrders` is the
buyer's order list (`self.__buyer.orders`).  From `PENDING`: set `COMPLETED`,
construct a `Payment` for the total and process it with `success=True`; on
payment success append the order to the buyer's list and return `True`, on
payment failure revert to `PENDING` and return `False`.  From any other status
return `False`. -/
def Order.complete_order (o : Order) (buyerOrders : List Order) :
    Order × List Order × Bool :=
  if o.status = .pending then
    let o1 := { o with status := OrderStatus.completed }
    let payment : Payment :=
      { id := buyerOrders.length + 1, amount := o.total_price,
        status := .pending }
    if (payment.process_payment true).2 then
      (o1, buyerOrders ++ [o1], true)
    else
      ({ o1 with status := OrderStatus.pending }, buyerOrders, false)
  else
    (o, buyerOrders, false)

/-- `Order.cancel_order` (main2.py lines 323-330).  `tickets` are the ticket
objects held by the order.  From `PENDING`: set every held ticket's status to
`AVAILABLE` (the buyer back-reference is *not* cleared) and set the order
`CANCELED`, returning `True`; otherwise return `False` with nothing touched. -/
def Order.cancel_order (o : Order) (tickets : List Ticket) :
    Order × List Ticket × Bool :=
  if o.status = .pending then
    ({ o with status := OrderStatus.canceled },
     tickets.map (fun t => { t with status := TicketStatus.available }), true)
  else
    (o, tickets, false)

/-- State of a `RefundRequest` object (`main2.py`, `RefundRequest.__init__`):
status (`PENDING` at construction) and the refund amount. -/
structure RefundRequest where
  id : Nat
  status : RefundStatus
  refund_amount : ℚ
deriving DecidableEq, Repr

/-- `RefundRequest.approve_refund` (main2.py lines 367-373).  `t` is the state
of the referenced ticket.  From `PENDING`: set `APPROVED`, call
`Ticket.refund` on the ticket (its boolean result is discarded) and return
`True`; otherwise return `False` with the ticket untouched. -/
def RefundRequest.approve_refund (r : RefundRequest) (t : Ticket) :
    RefundRequest × Ticket × Bool :=
  if r.status = .pending then
    ({ r with status := RefundStatus.approved }, (t.refund).1, true)
  else
    (r, t, false)

/-- State of a `Hall` object (`main2.py`): id, size label and capacity. -/
structure Hall where
  id : Nat
  size : String
  capacity : Nat
deriving DecidableEq, Repr

/-- State of a `Zone` object (`main2.py`, `Zone.__init__`): type label,
capacity, price and the owned ticket list. -/
structure Zone where
  type : String
  capacity : Nat
  price : ℚ
  tickets : List Ticket
deriving DecidableEq, Repr

/-- `Zone.__init__` (main2.py lines 219-223): eagerly builds tickets with ids
`1 .. capacity`, all `AVAILABLE` with no buyer. -/
def Zone.init (ty : String) (capacity : Nat) (price : ℚ) : Zone :=
  { type := ty, capacity := capacity, price := price,
    tickets := (List.range capacity).map (fun i => Ticket.init (i + 1)) }

/-- `Zone.get_available_tickets` (main2.py lines 240-242): the tickets whose
status is `AVAILABLE`, in list order, truncated to the first `quantity`. -/
def Zone.get_available_tickets (z : Zone) (quantity : Nat) : List Ticket :=
  (z.tickets.filter (fun t => t.status == TicketStatus.available)).take quantity

/-- Pairs each element of a list with its position, starting at `n`.  This
models Python object references: a reference to a ticket of a zone is its
position in the zone's list. -/
def indexed (n : Nat) : List Ticket → List (Nat × Ticket)
  | [] => []
  | t :: ts => (n, t) :: indexed (n + 1) ts

/-- The references returned by `zone.get_available_tickets(quantity)`:
the same tickets as `Zone.get_available_tickets`, each paired with its
position in the zone's ticket list. -/
def Zone.availableRefs (z : Zone) (quantity : Nat) : List (Nat × Ticket) :=
  ((indexed 0 z.tickets).filter
    (fun p => p.2.status == TicketStatus.available)).take quantity

/-- State of an `Event` object (`main2.py`, `Event.__init__`): id, name, the
hall, and the zones dictionary (insertion-ordered key/value list, keys are
zone types). -/
structure Event where
  id : Nat
  name : String
  hall : Hall
  zones : List (String × Zone)
deriving DecidableEq, Repr

/-- Python `dict` assignment `zones[key] = zone`: overwrite in place when the
key is present, else append. -/
def dictInsert : List (String × Zone) → String → Zone → List (String × Zone)
  | [], k, z => [(k, z)]
  | (k', z') :: rest, k, z =>
    if k' = k then (k, z) :: rest else (k', z') :: dictInsert rest k z

/-- `Event.add_zone` (main2.py lines 173-175): registers the zone under its
type key (overwriting an existing zone of the same type). -/
def Event.add_zone (e : Event) (z : Zone) : Event :=
  { e with zones := dictInsert e.zones z.type z }

/-- Python `int()` truncation toward zero of a rational. -/
def pyInt (q : ℚ) : Int :=
  if q < 0 then -(⌊-q⌋) else ⌊q⌋

/-- `Event.add_zone_with_percentage` (main2.py lines 177-187): computes
`capacity = int(hall.capacity * percentage)` and registers a fresh
`Zone(type, capacity, price)`.  A non-positive capacity yields an empty ticket
list, as Python `range(1, capacity + 1)` does, so `Int.toNat` clamping is
faithful. -/
def Event.add_zone_with_percentage (e : Event) (zone_type : String)
    (percentage : ℚ) (price : ℚ) : Event :=
  let capacity := (pyInt ((e.hall.capacity : ℚ) * percentage)).toNat
  e.add_zone (Zone.init zone_type capacity price)

/-- State of a `Buyer` object (`main2.py`, `Buyer.__init__`): id and the held
ticket ids and orders. -/
structure Buyer where
  id : Nat
  tickets : List Nat
  orders : List Order
deriving DecidableEq, Repr

/-- The ticket-purchase loop of `Buyer.purchase_tickets` (main2.py lines
114-118): for each referenced ticket, fetch it from the live zone state,
`Ticket.purchase` it (mutating the zone and appending the ticket to the
buyer's list) and `Order.add_ticket` it; on the first failed purchase the
function returns `None` — the order is discarded but mutations already applied
stand.  Returns the final zone tickets, the ids appended to the buyer's
ticket list, and the order (`none` on failure). -/
def purchaseLoop (buyerId : Nat) (price : ℚ) :
    List (Nat × Ticket) → List Ticket → Order → List Nat →
    List Ticket × List Nat × Option Order
  | [], ts, o, bought => (ts, bought, some o)
  | (i, _) :: rest, ts, o, bought =>
    match ts[i]? with
    | none => (ts, bought, none)
    | some t =>
      match t.purchase buyerId with
      | (t', true) =>
        purchaseLoop buyerId price rest (ts.set i t')
          (o.add_ticket t'.id price) (bought ++ [t'.id])
      | (_, false) => (ts, bought, none)

/-- `Buyer.purchase_tickets` (main2.py lines 102-125): look the zone up by
type (`None` on a miss); take up to `quantity` available tickets (`None` when
fewer are available); create a fresh order and purchase each referenced
ticket; finally `Order.complete_order`.  Returns the updated event state, the
updated buyer state and the order (`none` on failure). -/
def Buyer.purchase_tickets (b : Buyer) (e : Event) (zone_type : String)
    (quantity : Nat) : Event × Buyer × Option Order :=
  match (e.zones).lookup zone_type with
  | none => (e, b, none)
  | some z =>
    let refs := z.availableRefs quantity
    if refs.length < quantity then (e, b, none)
    else
      match purchaseLoop b.id z.price refs z.tickets
          (Order.init (b.orders.length + 1)) [] with
      | (ts', bought, none) =>
        ({ e with zones := dictInsert e.zones zone_type { z with tickets := ts' } },
         { b with tickets := b.tickets ++ bought }, none)
      | (ts', bought, some o) =>
        match o.complete_order b.orders with
        | (oC, newOrders, true) =>
          ({ e with zones := dictInsert e.zones zone_type { z with tickets := ts' } },
           { b with tickets := b.tickets ++ bought, orders := newOrders },
           some oC)
        | (_, newOrders, false) =>
          ({ e with zones := dictInsert e.zones zone_type { z with tickets := ts' } },
           { b with tickets := b.tickets ++ bought, orders := newOrders },
           none)

/-- Concrete fixtures mirroring `test_ticket_purchase` in `main2.py` (hall of
capacity 1000, a VIP zone priced 150.0, a buyer with id 2); used to
instantiate theorems at concrete inputs. -/
def sampleHall : Hall :=
  { id := 1, size := "Large", capacity := 1000 }

/-- A VIP zone with a single ticket, priced 150.0. -/
def sampleZone1 : Zone := Zone.init "VIP" 1 (150 : ℚ)

/-- A VIP zone with exactly two tickets, priced 150.0. -/
def sampleZone2 : Zone := Zone.init "VIP" 2 (150 : ℚ)

/-- An event whose only zone is `sampleZone1`. -/
def sampleEvent1 : Event :=
  { id := 1, name := "Concert", hall := sampleHall, zones := [("VIP", sampleZone1)] }

/-- An event whose only zone is `sampleZone2`. -/
def sampleEvent2 : Event :=
  { id := 1, name := "Concert", hall := sampleHall, zones := [("VIP", sampleZone2)] }

/-- A fresh buyer with id 2 (as in `test_ticket_purchase`). -/
def sampleBuyer : Buyer :=
  { id := 2, tickets := [], orders := [] }

/-- The spec's Ticket invariant: the buyer back-reference is set exactly when
the status is not `AVAILABLE`. -/
def Ticket.inv (t : Ticket) : Prop :=
  t.buyer.isSome ↔ t.status ≠ TicketStatus.available

instance (t : Ticket) : Decidable (t.inv) := by
  unfold Ticket.inv
  infer_instance

/-- The effect of a successful `Ticket.purchase` on the ticket object. -/
def soldTo (buyerId : Nat) (t : Ticket) : Ticket :=
  { t with buyer := some buyerId, status := TicketStatus.sold }

/-- Applies, position by position, the mutations of a successful purchase loop
to the zone's ticket list. -/
def applyPurchases (buyerId : Nat) : List Ticket → List (Nat × Ticket) → List Ticket
  | ts, [] => ts
  | ts, p :: rest => applyPurchases buyerId (ts.set p.1 (soldTo buyerId p.2)) rest

/-- Well-formed ticket references into a zone state `ts`: positions strictly
increase, and each position holds the paired ticket, which is `AVAILABLE`.
`Zone.availableRefs` always produces such references. -/
def GoodRefs (ts : List Ticket) (refs : List (Nat × Ticket)) : Prop :=
  refs.Pairwise (fun a b => a.1 < b.1) ∧
  ∀ p ∈ refs, ts[p.1]? = some p.2 ∧ p.2.status = TicketStatus.available

end EventTicketing

namespace EventTicketingV1

/-- `TicketStatus` enumeration of `main.py`. -/
inductive TicketStatus where
  | available
  | sold
  | refunded
deriving DecidableEq, Repr

/-- `PaymentStatus` enumeration of `main.py` (no `FAILED` member). -/
inductive PaymentStatus where
  | pending
  | completed
deriving DecidableEq, Repr

/-- `RefundStatus` enumeration of `main.py`. -/
inductive RefundStatus where
  | pending
  | approved
  | rejected
deriving DecidableEq, Repr

/-- State of a `Ticket` object of `main.py`: status and optional buyer id. -/
structure Ticket where
  id : Nat
  status : TicketStatus
  buyer : Option Nat
deriving DecidableEq, Repr

/-- `Ticket.purchase` of `main.py` (lines 38-44): mutates only when the status
is `AVAILABLE`; the Python method returns `None`, so only the mutation is
modelled. -/
def Ticket.purchase (t : Ticket) (buyerId : Nat) : Ticket :=
  if t.status = .available then
    { t with status := .sold, buyer := some buyerId }
  else
    t

/-- `Ticket.refund` of `main.py` (lines 46-51): mutates to `REFUNDED` exactly
when the status is `SOLD` (no buyer check in this variant). -/
def Ticket.refund (t : Ticket) : Ticket :=
  if t.status = .sold then { t with status := .refunded } else t

/-- State of a `Payment` object of `main.py`: amount and status.  Its
`process_payment` takes no outcome argument. -/
structure Payment where
  id : Nat
  amount : ℚ
  status : PaymentStatus
deriving DecidableEq, Repr

/-- `Payment.process_payment` of `main.py` (lines 108-113): transitions
`PENDING → COMPLETED` and leaves an already-processed payment unchanged. -/
def Payment.process_payment (p : Payment) : Payment :=
  if p.status = .pending then { p with status := .completed } else p

/-- State of a `RefundRequest` object of `main.py`. -/
structure RefundRequest where
  status : RefundStatus
deriving DecidableEq, Repr

/-- `RefundRequest.approve_refund` of `main.py` (lines 123-130): if the ticket
is `SOLD`, set `APPROVED` and refund the ticket; otherwise set `REJECTED` and
leave the ticket untouched.  (This variant does not consult the request's own
status.) -/
def RefundRequest.approve_refund (r : RefundRequest) (t : Ticket) :
    RefundRequest × Ticket :=
  if t.status = .sold then
    ({ r with status := .approved }, t.refund)
  else
    ({ r with status := .rejected }, t)

end EventTicketingV1

namespace EventTicketing

theorem mem_indexed : ∀ (l : List Ticket) (n i : Nat) (t : Ticket),
    (i, t) ∈ indexed n l ↔ n ≤ i ∧ l[i - n]? = some t
  | [], n, i, t => by simp [indexed]
  | a :: ts, n, i, t => by
    simp only [indexed, List.mem_cons, mem_indexed ts (n + 1) i t, Prod.mk.injEq]
    constructor
    · rintro (⟨rfl, rfl⟩ | ⟨h1, h2⟩)
      · simp
      · refine ⟨by omega, ?_⟩
        have hik : i - n = (i - (n + 1)) + 1 := by omega
        rw [hik, List.getElem?_cons_succ]
        exact h2
    · rintro ⟨h1, h2⟩
      rcases Nat.eq_or_lt_of_le h1 with heq | hlt
      · left
        subst heq
        simp only [Nat.sub_self, List.getElem?_cons_zero, Option.some.injEq] at h2
        exact ⟨rfl, h2.symm⟩
      · right
        refine ⟨by omega, ?_⟩
        have hik : i - n = (i - (n + 1)) + 1 := by omega
        rw [hik, List.getElem?_cons_succ] at h2
        exact h2

theorem indexed_map_snd : ∀ (l : List Ticket) (n : Nat),
    (indexed n l).map Prod.snd = l
  | [], _ => rfl
  | t :: ts, n => by simp [indexed, indexed_map_snd ts (n + 1)]

theorem indexed_filter_map_snd (pred : Ticket → Bool) :
    ∀ (l : List Ticket) (n : Nat),
    ((indexed n l).filter (fun p => pred p.2)).map Prod.snd = l.filter pred
  | [], _ => rfl
  | t :: ts, n => by
    by_cases h : pred t <;>
      simp [indexed, List.filter_cons, h, indexed_filter_map_snd pred ts (n + 1)]

theorem indexed_pairwise : ∀ (l : List Ticket) (n : Nat),
    (indexed n l).Pairwise (fun a b => a.1 < b.1)
  | [], _ => List.Pairwise.nil
  | t :: ts, n => by
    refine List.Pairwise.cons ?_ (indexed_pairwise ts (n + 1))
    intro p hp
    have := (mem_indexed ts (n + 1) p.1 p.2).1 hp
    simp only
    omega

theorem availableRefs_good (z : Zone) (q : Nat) :
    GoodRefs z.tickets (z.availableRefs q) := by
  constructor
  · exact (indexed_pairwise z.tickets 0).sublist
      ((List.take_sublist _ _).trans (List.filter_sublist _))
  · intro p hp
    have hp1 : p ∈ (indexed 0 z.tickets).filter
        (fun p => p.2.status == TicketStatus.available) :=
      List.mem_of_mem_take hp
    rw [List.mem_filter] at hp1
    obtain ⟨hmem, hpred⟩ := hp1
    have h := (mem_indexed z.tickets 0 p.1 p.2).1 hmem
    refine ⟨by simpa using h.2, by simpa using hpred⟩

theorem availableRefs_map_snd (z : Zone) (q : Nat) :
    (z.availableRefs q).map Prod.snd = z.get_available_tickets q := by
  unfold Zone.availableRefs Zone.get_available_tickets
  rw [List.map_take,
    indexed_filter_map_snd (fun t => t.status == TicketStatus.available) z.tickets 0]

theorem availableRefs_length (z : Zone) (q : Nat) :
    (z.availableRefs q).length =
      min q (z.tickets.filter (fun t => t.status == TicketStatus.available)).length := by
  have h := congrArg List.length (availableRefs_map_snd z q)
  rw [List.length_map] at h
  rw [h]
  unfold Zone.get_available_tickets
  exact List.length_take ..

theorem GoodRefs.tail_set (buyerId : Nat) {ts : List Ticket} {i : Nat}
    {t : Ticket} {rest : List (Nat × Ticket)}
    (h : GoodRefs ts ((i, t) :: rest)) :
    GoodRefs (ts.set i (soldTo buyerId t)) rest := by
  obtain ⟨hpw, hmem⟩ := h
  rw [List.pairwise_cons] at hpw
  refine ⟨hpw.2, ?_⟩
  intro p hp
  have h1 := hmem p (List.mem_cons_of_mem _ hp)
  have hlt : i < p.1 := hpw.1 p hp
  rw [List.getElem?_set_ne (by omega)]
  exact h1

theorem purchaseLoop_spec (buyerId : Nat) (price : ℚ) :
    ∀ (refs : List (Nat × Ticket)) (ts : List Ticket) (o : Order)
      (bought : List Nat), GoodRefs ts refs →
    purchaseLoop buyerId price refs ts o bought =
      (applyPurchases buyerId ts refs,
       bought ++ refs.map (fun p => p.2.id),
       some { id := o.id,
              ticketIds := o.ticketIds ++ refs.map (fun p => p.2.id),
              total_price := o.total_price + refs.length * price,
              status := o.status })
  | [], ts, o, bought, _ => by
    simp [purchaseLoop, applyPurchases]
  | (i, t) :: rest, ts, o, bought, h => by
    have hit := h.2 (i, t) (List.mem_cons_self _ _)
    have hit1 : ts[i]? = some t := hit.1
    have hit2 : t.status = TicketStatus.available := hit.2
    have hrest : GoodRefs (ts.set i (soldTo buyerId t)) rest := h.tail_set buyerId
    have hpurch : t.purchase buyerId = (soldTo buyerId t, true) := by
      simp [Ticket.purchase, hit2, soldTo]
    simp only [purchaseLoop, hit1, hpurch]
    rw [purchaseLoop_spec buyerId price rest (ts.set i (soldTo buyerId t))
        (o.add_ticket (soldTo buyerId t).id price) (bought ++ [(soldTo buyerId t).id]) hrest]
    simp only [applyPurchases, Order.add_ticket, soldTo, List.map_cons,
      List.length_cons, List.append_assoc, List.singleton_append,
      Prod.mk.injEq, Option.some.injEq, Order.mk.injEq, true_and, and_true]
    push_cast
    ring

theorem applyPurchases_getElem?_notin (buyerId : Nat) :
    ∀ (refs : List (Nat × Ticket)) (ts : List Ticket) (j : Nat),
    (∀ p ∈ refs, j ≠ p.1) →
    (applyPurchases buyerId ts refs)[j]? = ts[j]?
  | [], ts, j, _ => rfl
  | p :: rest, ts, j, h => by
    rw [applyPurchases,
      applyPurchases_getElem?_notin buyerId rest (ts.set p.1 (soldTo buyerId p.2)) j
        (fun q hq => h q (List.mem_cons_of_mem _ hq)),
      List.getElem?_set_ne (h p (List.mem_cons_self _ _)).symm]

theorem applyPurchases_getElem?_mem (buyerId : Nat) :
    ∀ (refs : List (Nat × Ticket)) (ts : List Ticket), GoodRefs ts refs →
    ∀ p ∈ refs, (applyPurchases buyerId ts refs)[p.1]? = some (soldTo buyerId p.2)
  | [], _, _, _, hp => absurd hp (List.not_mem_nil _)
  | (i, t) :: rest, ts, h, p, hp => by
    have hrest : GoodRefs (ts.set i (soldTo buyerId t)) rest := h.tail_set buyerId
    rcases List.mem_cons.1 hp with rfl | hp'
    · have hi : i < ts.length := by
        have := h.2 (i, t) (List.mem_cons_self _ _)
        obtain ⟨hlt, -⟩ := List.getElem?_eq_some_iff.1 this.1
        exact hlt
      rw [applyPurchases,
        applyPurchases_getElem?_notin buyerId rest (ts.set i (soldTo buyerId t)) i
          (fun q hq => by
            have := (List.pairwise_cons.1 h.1).1 q hq
            omega)]
      simp [List.getElem?_set_self (by simpa using hi)]
    · exact applyPurchases_getElem?_mem buyerId rest (ts.set i (soldTo buyerId t)) hrest p hp'

theorem lookup_dictInsert : ∀ (zs : List (String × Zone)) (k : String) (z : Zone),
    (dictInsert zs k z).lookup k = some z
  | [], k, z => by simp [dictInsert, List.lookup]
  | (k', z') :: rest, k, z => by
    by_cases h : k' = k
    · simp [dictInsert, h, List.lookup]
    · rw [dictInsert, if_neg h]
      have hbeq : (k == k') = false := by simpa using Ne.symm h
      rw [List.lookup, hbeq]
      exact lookup_dictInsert rest k z

end EventTicketing

namespace EventTicketing

theorem applyPurchases_length (buyerId : Nat) :
    ∀ (refs : List (Nat × Ticket)) (ts : List Ticket),
    (applyPurchases buyerId ts refs).length = ts.length
  | [], _ => rfl
  | p :: rest, ts => by
    rw [applyPurchases,
      applyPurchases_length buyerId rest (ts.set p.1 (soldTo buyerId p.2)),
      List.length_set]

/-- When at least `q` tickets of the looked-up zone are available,
`Buyer.purchase_tickets` succeeds: the zone's referenced tickets are sold, the
bought ids are appended to the buyer, and a completed order for `q` tickets at
the zone's price is appended to the buyer's orders and returned. -/
theorem purchase_tickets_eq_of_le (e : Event) (b : Buyer) (zt : String)
    (z : Zone) (q : Nat) (hz : e.zones.lookup zt = some z)
    (hq : q ≤ (z.tickets.filter (fun t => t.status == TicketStatus.available)).length) :
    b.purchase_tickets e zt q =
      ({ e with zones := (dictInsert e.zones zt
           { z with tickets := applyPurchases b.id z.tickets (z.availableRefs q) }) },
       { b with
           tickets := b.tickets ++ (z.availableRefs q).map (fun p => p.2.id),
           orders := b.orders ++
             [{ id := b.orders.length + 1,
                ticketIds := (z.availableRefs q).map (fun p => p.2.id),
                total_price := (q : ℚ) * z.price,
                status := OrderStatus.completed }] },
       some { id := b.orders.length + 1,
              ticketIds := (z.availableRefs q).map (fun p => p.2.id),
              total_price := (q : ℚ) * z.price,
              status := OrderStatus.completed }) := by
  have hgood := availableRefs_good z q
  have hlen : (z.availableRefs q).length = q := by
    rw [availableRefs_length]
    omega
  have hloop := purchaseLoop_spec b.id z.price (z.availableRefs q) z.tickets
    (Order.init (b.orders.length + 1)) [] hgood
  rw [hlen] at hloop
  have hnotlt : ¬ (z.availableRefs q).length < q := by omega
  simp only [Buyer.purchase_tickets, hz]
  rw [if_neg hnotlt, hloop]
  simp only [Order.init, List.nil_append, Order.complete_order,
    Payment.process_payment, if_true, zero_add]

end EventTicketing

namespace EventTicketing

/-- Claim C4: `Ticket.purchase(buyer)` succeeds — returns `True`, mutates the
status to `SOLD` and records the buyer — exactly when the current status is
`AVAILABLE`; otherwise it returns `False` and leaves status and buyer
unchanged.  The `main.py` variant (which returns `None`) likewise mutates
exactly when the status is `AVAILABLE` and is a no-op otherwise. -/
theorem ticket_purchase_iff_available (t : Ticket)
    (t1 : EventTicketingV1.Ticket) (buyerId : Nat) :
    (if t.status = TicketStatus.available
      then t.purchase buyerId =
        ({ t with status := TicketStatus.sold, buyer := some buyerId }, true)
      else t.purchase buyerId = (t, false)) ∧
    (if t1.status = EventTicketingV1.TicketStatus.available
      then t1.purchase buyerId =
        { t1 with status := EventTicketingV1.TicketStatus.sold,
                  buyer := some buyerId }
      else t1.purchase buyerId = t1) := by
  refine ⟨?_, ?_⟩ <;> split <;>
    simp_all [Ticket.purchase, EventTicketingV1.Ticket.purchase]

/-- Claim C5, counterexample: a ticket with status `SOLD` but no recorded
buyer is not refunded by `main2.py`'s `Ticket.refund` — the call returns
`False` and leaves the ticket unchanged although its status is `SOLD`,
refuting ``refund() succeeds iff the status is Sold''. -/
theorem ticket_refund_sold_claim_false :
    ({ id := 1, status := TicketStatus.sold, buyer := none } : Ticket).status
        = TicketStatus.sold ∧
    Ticket.refund { id := 1, status := TicketStatus.sold, buyer := none }
        = ({ id := 1, status := TicketStatus.sold, buyer := none }, false) := by
  decide

/-- Claim C5, amended: `main2.py`'s `Ticket.refund()` succeeds — returns
`True` and mutates the status to `REFUNDED` — exactly when the status is
`SOLD` *and* a buyer is recorded; otherwise it returns `False` and leaves the
ticket unchanged.  The `main.py` variant refunds exactly when the status is
`SOLD` (no buyer check). -/
theorem ticket_refund_spec (t : Ticket) (t1 : EventTicketingV1.Ticket) :
    (if t.status = TicketStatus.sold ∧ t.buyer.isSome
      then t.refund = ({ t with status := TicketStatus.refunded }, true)
      else t.refund = (t, false)) ∧
    (if t1.status = EventTicketingV1.TicketStatus.sold
      then t1.refund = { t1 with status := EventTicketingV1.TicketStatus.refunded }
      else t1.refund = t1) := by
  refine ⟨?_, ?_⟩ <;> split <;>
    simp_all [Ticket.refund, EventTicketingV1.Ticket.refund]

/-- Claim C2, counterexample: in `main2.py`, approving a `PENDING` refund
request whose ticket is not `SOLD` does **not** fail — `approve_refund`
returns `True` and sets the request `APPROVED` (the failed `Ticket.refund` is
silently discarded), refuting ``approve_refund() fails''. -/
theorem approve_refund_non_sold_claim_false :
    (RefundRequest.approve_refund
        { id := 1, status := RefundStatus.pending, refund_amount := 150 }
        { id := 1, status := TicketStatus.available, buyer := none }).2.2
      = true ∧
    (RefundRequest.approve_refund
        { id := 1, status := RefundStatus.pending, refund_amount := 150 }
        { id := 1, status := TicketStatus.available, buyer := none }).1.status
      = RefundStatus.approved := by
  exact ⟨rfl, rfl⟩

/-- Claim C2, amended: for a `PENDING` refund request on a ticket whose status
is not `SOLD`, the ticket's status is left unchanged in both variants, but the
two variants disagree on the outcome: `main2.py`'s `approve_refund` still
succeeds (returns `True` and sets the request `APPROVED`, the failed
`Ticket.refund` being ignored), while `main.py`'s rejects (sets `REJECTED`). -/
theorem approve_refund_non_sold (r : RefundRequest) (t : Ticket)
    (r1 : EventTicketingV1.RefundRequest) (t1 : EventTicketingV1.Ticket)
    (hr : r.status = RefundStatus.pending)
    (ht : t.status ≠ TicketStatus.sold)
    (ht1 : t1.status ≠ EventTicketingV1.TicketStatus.sold) :
    r.approve_refund t = ({ r with status := RefundStatus.approved }, t, true) ∧
    r1.approve_refund t1
      = ({ r1 with status := EventTicketingV1.RefundStatus.rejected }, t1) := by
  constructor
  · simp [RefundRequest.approve_refund, hr, Ticket.refund, ht]
  · simp [EventTicketingV1.RefundRequest.approve_refund, ht1]

/-- Witness for the amended C2 at concrete states. -/
theorem approve_refund_non_sold_witness :
    ((⟨1, RefundStatus.pending, 150⟩ : RefundRequest).status = RefundStatus.pending ∧
     (⟨1, TicketStatus.available, none⟩ : Ticket).status ≠ TicketStatus.sold ∧
     (⟨1, EventTicketingV1.TicketStatus.available, none⟩ : EventTicketingV1.Ticket).status
        ≠ EventTicketingV1.TicketStatus.sold) ∧
    (RefundRequest.approve_refund ⟨1, RefundStatus.pending, 150⟩
        ⟨1, TicketStatus.available, none⟩
      = (⟨1, RefundStatus.approved, 150⟩, ⟨1, TicketStatus.available, none⟩, true) ∧
     EventTicketingV1.RefundRequest.approve_refund ⟨EventTicketingV1.RefundStatus.pending⟩
        ⟨1, EventTicketingV1.TicketStatus.available, none⟩
      = (⟨EventTicketingV1.RefundStatus.rejected⟩,
         ⟨1, EventTicketingV1.TicketStatus.available, none⟩)) :=
  ⟨⟨rfl, by decide, by decide⟩,
   approve_refund_non_sold ⟨1, RefundStatus.pending, 150⟩
     ⟨1, TicketStatus.available, none⟩ ⟨EventTicketingV1.RefundStatus.pending⟩
     ⟨1, EventTicketingV1.TicketStatus.available, none⟩ rfl (by decide) (by decide)⟩

/-- Claim C3, counterexample: `main2.py`'s `process_payment` is not terminal —
calling it with `success=False` on a payment whose status is already
`COMPLETED` (not `PENDING`) changes the status to `FAILED`, refuting ``once a
Payment's status is not Pending, no further call changes it''. -/
theorem process_payment_terminal_claim_false :
    (Payment.process_payment
        { id := 1, amount := 150, status := PaymentStatus.completed } false).1.status
      = PaymentStatus.failed ∧
    PaymentStatus.failed ≠ PaymentStatus.completed := by
  exact ⟨rfl, by decide⟩

/-- Claim C3, amended: `main2.py`'s `process_payment(success)` never consults
the current status: from *any* state it sets `COMPLETED` and returns `True` on
success, `FAILED` and `False` on failure — so `COMPLETED`/`FAILED` are not
terminal there.  The `main.py` variant (which takes no outcome argument and
has no `FAILED` state) transitions only `PENDING → COMPLETED` and leaves an
already-processed payment unchanged. -/
theorem process_payment_spec (p : Payment) (success : Bool)
    (p1 : EventTicketingV1.Payment) :
    (p.process_payment success).1.status
        = (if success then PaymentStatus.completed else PaymentStatus.failed) ∧
    (p.process_payment success).2 = success ∧
    (if p1.status = EventTicketingV1.PaymentStatus.pending
      then p1.process_payment
        = { p1 with status := EventTicketingV1.PaymentStatus.completed }
      else p1.process_payment = p1) := by
  refine ⟨?_, ?_, ?_⟩
  · cases success <;> rfl
  · cases success <;> rfl
  · split <;> simp_all [EventTicketingV1.Payment.process_payment]

/-- Claim C10: `Order.complete_order` always invokes `process_payment` with
`success=True`, which always returns `True`, so the payment-failure branch is
unreachable: from a `PENDING` order, `complete_order` returns `True`, sets the
status `COMPLETED` and appends the order to the buyer's order list. -/
theorem complete_order_always_succeeds (o : Order) (orders : List Order)
    (p : Payment) (h : o.status = OrderStatus.pending) :
    (p.process_payment true).2 = true ∧
    o.complete_order orders =
      ({ o with status := OrderStatus.completed },
       orders ++ [{ o with status := OrderStatus.completed }], true) := by
  refine ⟨rfl, ?_⟩
  simp [Order.complete_order, Payment.process_payment, h]

/-- Witness for C10 at a concrete pending order. -/
theorem complete_order_always_succeeds_witness :
    (Order.init 1).status = OrderStatus.pending ∧
    ((Payment.mk 1 150 PaymentStatus.pending).process_payment true).2 = true ∧
    (Order.init 1).complete_order [] =
      ({ Order.init 1 with status := OrderStatus.completed },
       [] ++ [{ Order.init 1 with status := OrderStatus.completed }], true) :=
  ⟨rfl, complete_order_always_succeeds (Order.init 1) []
    (Payment.mk 1 150 PaymentStatus.pending) rfl⟩

end EventTicketing

namespace EventTicketing

/-- Claim C6: `get_available_tickets(n)` returns at most `n` tickets, every
returned ticket is `AVAILABLE`, the result is in strictly increasing
ticket-id order (given tickets in id order, as `Zone.__init__` makes them),
and fewer than `n` are returned only when fewer than `n` tickets of the zone
are `AVAILABLE`. -/
theorem get_available_tickets_spec (z : Zone) (n : Nat) (ty : String)
    (c : Nat) (pr : ℚ)
    (hsorted : z.tickets.Pairwise (fun a b => a.id < b.id)) :
    (Zone.init ty c pr).tickets.Pairwise (fun a b => a.id < b.id) ∧
    (z.get_available_tickets n).length ≤ n ∧
    (∀ t ∈ z.get_available_tickets n, t.status = TicketStatus.available) ∧
    (z.get_available_tickets n).Pairwise (fun a b => a.id < b.id) ∧
    ((z.get_available_tickets n).length < n →
      (z.tickets.filter (fun t => t.status == TicketStatus.available)).length < n) := by
  refine ⟨?_, List.length_take_le _ _, ?_, ?_, ?_⟩
  · rw [Zone.init, List.pairwise_map]
    exact (List.pairwise_lt_range c).imp
      (fun h => by simpa [Ticket.init] using Nat.succ_lt_succ h)
  · intro t ht
    have hmem := List.mem_filter.1 (List.mem_of_mem_take ht)
    simpa using hmem.2
  · exact hsorted.sublist ((List.take_sublist _ _).trans (List.filter_sublist _))
  · intro hlt
    rw [Zone.get_available_tickets, List.length_take] at hlt
    omega

/-- Witness for C6 at the two-ticket VIP zone and `n = 1`. -/
theorem get_available_tickets_spec_witness :
    sampleZone2.tickets.Pairwise (fun a b => a.id < b.id) ∧
    ((Zone.init "VIP" 3 150).tickets.Pairwise (fun a b => a.id < b.id) ∧
     (sampleZone2.get_available_tickets 1).length ≤ 1 ∧
     (∀ t ∈ sampleZone2.get_available_tickets 1, t.status = TicketStatus.available) ∧
     (sampleZone2.get_available_tickets 1).Pairwise (fun a b => a.id < b.id) ∧
     ((sampleZone2.get_available_tickets 1).length < 1 →
       (sampleZone2.tickets.filter
         (fun t => t.status == TicketStatus.available)).length < 1)) :=
  ⟨by decide, get_available_tickets_spec sampleZone2 1 "VIP" 3 150 (by decide)⟩

/-- Claim C7: when the looked-up zone has fewer `AVAILABLE` tickets than the
requested quantity, `Buyer.purchase_tickets` returns no order and the whole
state — event, zones, tickets and buyer — is returned unchanged, because the
inventory check precedes every individual ticket purchase. -/
theorem purchase_tickets_insufficient (e : Event) (b : Buyer) (zt : String)
    (q : Nat) (z : Zone) (hz : e.zones.lookup zt = some z)
    (hlt : (z.tickets.filter
      (fun t => t.status == TicketStatus.available)).length < q) :
    b.purchase_tickets e zt q = (e, b, none) := by
  have hcond : (z.availableRefs q).length < q := by
    rw [availableRefs_length]
    omega
  simp only [Buyer.purchase_tickets, hz]
  rw [if_pos hcond]

/-- Witness for C7: requesting 3 tickets from a 1-ticket zone fails and
changes nothing. -/
theorem purchase_tickets_insufficient_witness :
    sampleEvent1.zones.lookup "VIP" = some sampleZone1 ∧
    (sampleZone1.tickets.filter
      (fun t => t.status == TicketStatus.available)).length < 3 ∧
    sampleBuyer.purchase_tickets sampleEvent1 "VIP" 3
      = (sampleEvent1, sampleBuyer, none) :=
  ⟨by decide, by decide,
   purchase_tickets_insufficient sampleEvent1 sampleBuyer "VIP" 3 sampleZone1
     (by decide) (by decide)⟩

/-- Claim C8, counterexample: `Order.cancel_order` breaks the invariant
``buyer is set iff status ≠ Available'': cancelling a pending order holding a
`SOLD` ticket with a recorded buyer reverts the ticket's status to `AVAILABLE`
without clearing the buyer. -/
theorem ticket_buyer_invariant_claim_false :
    Ticket.inv { id := 1, status := TicketStatus.sold, buyer := some 2 } ∧
    (Order.cancel_order (Order.init 1)
        [{ id := 1, status := TicketStatus.sold, buyer := some 2 }]).2.1
      = [{ id := 1, status := TicketStatus.available, buyer := some 2 }] ∧
    ¬ Ticket.inv { id := 1, status := TicketStatus.available, buyer := some 2 } := by
  refine ⟨by decide, rfl, by decide⟩

/-- Claim C8, amended: the invariant ``buyer is set iff status ≠ Available''
holds at `Ticket.__init__` and is preserved by `Ticket.purchase`,
`Ticket.refund` and `RefundRequest.approve_refund`, but not by
`Order.cancel_order`, which reverts every held ticket's status to `AVAILABLE`
while leaving its buyer reference in place. -/
theorem ticket_buyer_invariant_preserved (tid buyerId : Nat) (t : Ticket)
    (r : RefundRequest) (h : t.inv) :
    (Ticket.init tid).inv ∧
    ((t.purchase buyerId).1).inv ∧
    ((t.refund).1).inv ∧
    ((r.approve_refund t).2.1).inv := by
  have hrefund : ((t.refund).1).inv := by
    unfold Ticket.refund
    split_ifs with hs
    · simp [Ticket.inv, hs.2]
    · exact h
  refine ⟨by simp [Ticket.init, Ticket.inv], ?_, hrefund, ?_⟩
  · unfold Ticket.purchase
    split_ifs with hs
    · simp [Ticket.inv]
    · exact h
  · unfold RefundRequest.approve_refund
    split_ifs with hs
    · exact hrefund
    · exact h

/-- Witness for the amended C8 at a sold ticket with recorded buyer. -/
theorem ticket_buyer_invariant_preserved_witness :
    Ticket.inv { id := 1, status := TicketStatus.sold, buyer := some 2 } ∧
    ((Ticket.init 10).inv ∧
     ((Ticket.purchase { id := 1, status := TicketStatus.sold, buyer := some 2 } 7).1).inv ∧
     ((Ticket.refund { id := 1, status := TicketStatus.sold, buyer := some 2 }).1).inv ∧
     ((RefundRequest.approve_refund ⟨1, RefundStatus.pending, 150⟩
        { id := 1, status := TicketStatus.sold, buyer := some 2 }).2.1).inv) :=
  ⟨by decide, ticket_buyer_invariant_preserved 10 7
    { id := 1, status := TicketStatus.sold, buyer := some 2 }
    ⟨1, RefundStatus.pending, 150⟩ (by decide)⟩

/-- Claim C9: on an event whose hall has capacity 1000,
`add_zone_with_percentage("VIP", 0.2, 150.0)` registers a zone with exactly
200 tickets at price 150.0, the capacity being `floor(hall.capacity * pct)`
(`int()` truncation coincides with `floor` on this non-negative value, and
`float(1000 * 0.2)` is exactly 200, so the rational model agrees with the
IEEE-double computation). -/
theorem add_zone_with_percentage_spec (e : Event) (h : e.hall.capacity = 1000) :
    ∃ z : Zone,
      (e.add_zone_with_percentage "VIP" (0.2 : ℚ) 150).zones.lookup "VIP"
        = some z ∧
      z.capacity = 200 ∧
      z.tickets.length = 200 ∧
      z.price = 150 ∧
      ⌊(1000 : ℚ) * 0.2⌋ = (200 : ℤ) := by
  refine ⟨Zone.init "VIP" 200 150, ?_, rfl, by simp [Zone.init], rfl, by norm_num⟩
  simp only [Event.add_zone_with_percentage, Event.add_zone]
  have hc : (pyInt ((e.hall.capacity : ℚ) * 0.2)).toNat = 200 := by
    rw [h]
    norm_num [pyInt]
    rfl
  rw [hc]
  exact lookup_dictInsert e.zones _ _

/-- Witness for C9 at a concrete event with a capacity-1000 hall. -/
theorem add_zone_with_percentage_spec_witness :
    sampleEvent1.hall.capacity = 1000 ∧
    (∃ z : Zone,
      (sampleEvent1.add_zone_with_percentage "VIP" (0.2 : ℚ) 150).zones.lookup "VIP"
        = some z ∧
      z.capacity = 200 ∧
      z.tickets.length = 200 ∧
      z.price = 150 ∧
      ⌊(1000 : ℚ) * 0.2⌋ = (200 : ℤ)) :=
  ⟨rfl, add_zone_with_percentage_spec sampleEvent1 rfl⟩

end EventTicketing

namespace EventTicketing

/-- Claim C1: for an event holding a zone under `zone_type` whose pool has
exactly 2 `AVAILABLE` tickets, `Buyer.purchase_tickets(event, zone_type, 2)`
returns an order containing exactly those 2 tickets, with total price
2 × zone price and status `COMPLETED`, and afterwards both formerly available
tickets of that zone are `SOLD` with the buyer recorded. -/
theorem purchase_two_from_two_available (e : Event) (b : Buyer) (zt : String)
    (z : Zone) (hz : e.zones.lookup zt = some z)
    (h2 : (z.tickets.filter
      (fun t => t.status == TicketStatus.available)).length = 2) :
    ∃ o : Order, ∃ z' : Zone,
      (b.purchase_tickets e zt 2).2.2 = some o ∧
      o.ticketIds = (z.tickets.filter
        (fun t => t.status == TicketStatus.available)).map Ticket.id ∧
      o.ticketIds.length = 2 ∧
      o.total_price = 2 * z.price ∧
      o.status = OrderStatus.completed ∧
      (b.purchase_tickets e zt 2).1.zones.lookup zt = some z' ∧
      z'.tickets.length = z.tickets.length ∧
      (∀ (i : Nat) (t : Ticket), z.tickets[i]? = some t →
        t.status = TicketStatus.available →
        z'.tickets[i]? = some { t with status := TicketStatus.sold,
                                       buyer := some b.id }) := by
  have key := purchase_tickets_eq_of_le e b zt z 2 hz (by omega)
  have hreflen : (z.availableRefs 2).length = 2 := by
    rw [availableRefs_length]
    omega
  have hmapids : (z.availableRefs 2).map (fun p => p.2.id)
      = (z.tickets.filter
          (fun t => t.status == TicketStatus.available)).map Ticket.id := by
    have h1 : ((z.availableRefs 2).map Prod.snd).map Ticket.id
        = (z.availableRefs 2).map (fun p => p.2.id) := by
      rw [List.map_map]
      rfl
    rw [← h1, availableRefs_map_snd]
    unfold Zone.get_available_tickets
    rw [List.take_of_length_le (by omega)]
  have hrefs_eq : z.availableRefs 2 =
      (indexed 0 z.tickets).filter
        (fun p => p.2.status == TicketStatus.available) := by
    unfold Zone.availableRefs
    apply List.take_of_length_le
    have hlen := congrArg List.length (indexed_filter_map_snd
      (fun t => t.status == TicketStatus.available) z.tickets 0)
    rw [List.length_map] at hlen
    omega
  refine ⟨{ id := b.orders.length + 1,
            ticketIds := (z.availableRefs 2).map (fun p => p.2.id),
            total_price := ((2 : ℕ) : ℚ) * z.price,
            status := OrderStatus.completed },
    { z with tickets := applyPurchases b.id z.tickets (z.availableRefs 2) },
    ?_, ?_, ?_, ?_, ?_, ?_, ?_, ?_⟩
  · rw [key]
  · exact hmapids
  · simp only [List.length_map, hreflen]
  · show ((2 : ℕ) : ℚ) * z.price = 2 * z.price
    norm_num
  · rfl
  · rw [key]
    exact lookup_dictInsert e.zones zt _
  · exact applyPurchases_length b.id (z.availableRefs 2) z.tickets
  · intro i t hget hav
    have hmem : (i, t) ∈ z.availableRefs 2 := by
      rw [hrefs_eq, List.mem_filter]
      refine ⟨(mem_indexed z.tickets 0 i t).2 ⟨Nat.zero_le i, ?_⟩, by simpa using hav⟩
      simpa using hget
    have hres := applyPurchases_getElem?_mem b.id (z.availableRefs 2) z.tickets
      (availableRefs_good z 2) (i, t) hmem
    simpa [soldTo] using hres

/-- Witness for C1: the two-ticket VIP zone of `test_ticket_purchase`. -/
theorem purchase_two_from_two_available_witness :
    sampleEvent2.zones.lookup "VIP" = some sampleZone2 ∧
    (sampleZone2.tickets.filter
      (fun t => t.status == TicketStatus.available)).length = 2 ∧
    (∃ o : Order, ∃ z' : Zone,
      (sampleBuyer.purchase_tickets sampleEvent2 "VIP" 2).2.2 = some o ∧
      o.ticketIds = (sampleZone2.tickets.filter
        (fun t => t.status == TicketStatus.available)).map Ticket.id ∧
      o.ticketIds.length = 2 ∧
      o.total_price = 2 * sampleZone2.price ∧
      o.status = OrderStatus.completed ∧
      (sampleBuyer.purchase_tickets sampleEvent2 "VIP" 2).1.zones.lookup "VIP"
        = some z' ∧
      z'.tickets.length = sampleZone2.tickets.length ∧
      (∀ (i : Nat) (t : Ticket), sampleZone2.tickets[i]? = some t →
        t.status = TicketStatus.available →
        z'.tickets[i]? = some { t with status := TicketStatus.sold,
                                       buyer := some sampleBuyer.id })) :=
  ⟨by decide, by decide,
   purchase_two_from_two_available sampleEvent2 sampleBuyer "VIP" sampleZone2
     (by decide) (by decide)⟩

end EventTicketing
